import Mathlib

/-!
Shallow embedding of the core of `mcp-server-subagent` (TypeScript).

The run lifecycle side (Process Runner, Status Reporter, status updater)
operates on flat run documents (`.meta.json`), translated from
`src/tools/run.ts` and `src/tools/status.ts`.  The message channel
(`askParent`, `replySubagent`, `checkMessageStatus`) operates on documents
whose communication state lives in a nested `meta` sub-object, translated
from `src/tools/askParent.ts`, `src/tools/replySubagent.ts` and
`src/tools/checkMessage.ts` (the shape established by the design document
and the vitest suites).

File-system effects are embedded by explicit state passing: each operation
takes the currently persisted document (or `none` when the file is absent)
and returns the document it writes back together with its result value.
`JSON.parse` is an oracle parameter `parse : String → Option RunDoc`
where the distinction parse-failure versus missing-file matters.
-/

namespace Subagent

/-- JavaScript truthiness of an optional string field: `undefined`/`null`
and the empty string are falsy (`!value` in the source). -/
def optStrTruthy : Option String → Bool
  | none => false
  | some s => !s.isEmpty

/-- `["success", "error", "completed"].includes(status)` from
`src/tools/status.ts`. -/
def isTerminalStatus (s : String) : Bool :=
  s == "success" || s == "error" || s == "completed"

/-- One question/answer exchange, from the `CommunicationMessage` type. -/
structure Message where
  messageId : String
  questionContent : String
  questionTimestamp : String
  answerContent : Option String
  answerTimestamp : Option String
  messageStatus : String
  deriving Repr, DecidableEq

/-- A flat run document (`.meta.json`) as written by the Process Runner
(`src/tools/run.ts`) and the status updater (`src/tools/status.ts`).
Optional fields model JSON fields that may be `null` or absent. -/
structure RunDoc where
  runId : String
  agentName : Option String
  command : String
  startTime : String
  status : String
  exitCode : Option Int
  endTime : Option String
  summary : Option String
  lastUpdated : Option String
  errorText : Option String
  messages : Option (List Message)
  deriving Repr, DecidableEq

/-- The initial metadata written by `runSubagent` before spawning
(`src/tools/run.ts`, lines 44-54): `status: "running"`, `exitCode: null`,
`endTime: null`, `summary: null`. -/
def initialMetadata (runId command startTime : String) : RunDoc :=
  { runId := runId
    agentName := none
    command := command
    startTime := startTime
    status := "running"
    exitCode := none
    endTime := none
    summary := none
    lastUpdated := none
    errorText := none
    messages := none }

/-- `logContent.split("\n").slice(-50).join("\n")` — the log-tail summary
derivation used by the process-close handler and the spawn-failure path
(`src/tools/run.ts`, lines 116-117 and 152-153): the last 50 lines of the
log. -/
def logTail (logContent : String) : String :=
  let lines := logContent.splitOn "\n"
  String.intercalate "\n" (lines.drop (lines.length - 50))

/-- The `process.on("close")` handler of `runSubagent`
(`src/tools/run.ts`, lines 89-139).  `current` is the re-read run document
(it may have been mutated during the run by worker-initiated updates),
`code` the exit code (`null` when killed by a signal), `logContent` the
content of the run log at that point, `endTime` the wall-clock timestamp.
Mirrors the source: the status is always set to the exit-code
classification, the summary falls back to the log tail only when the
process exited non-zero and no summary is present, and `endTime` is
written unconditionally. -/
def closeHandler (current : RunDoc) (code : Option Int) (logContent : String)
    (endTime : String) : RunDoc :=
  let finalSummary :=
    if code ≠ some 0 then
      if optStrTruthy current.summary then current.summary else some (logTail logContent)
    else current.summary
  { current with
    status := if code = some 0 then "success" else "error"
    exitCode := code
    endTime := some endTime
    summary := finalSummary }

/-- The `catch` block of `runSubagent` (`src/tools/run.ts`, lines 143-170):
the error text is first appended to the log, the summary is then derived
from the log tail, the error metadata is persisted, and the caught error is
re-thrown (`throw error` at line 169).  Returns the written document and
the control-flow outcome of the call (`Except.error` = the throw reaching
the awaiting caller). -/
def spawnFailure (metadata : RunDoc) (err : String) (logContent : String)
    (errorTime : String) : RunDoc × Except String String :=
  let log2 := logContent ++ "[" ++ errorTime ++ "] Error executing subagent: " ++ err ++ "\n"
  let summary := logTail log2
  ({ metadata with
      status := "error"
      errorText := some err
      endTime := some errorTime
      summary := some summary },
   Except.error err)

/-- Outcome of the `spawn` call used to launch the worker. -/
inductive SpawnResult
  | spawned
  | failed (err : String)
  deriving Repr, DecidableEq

/-- The synchronous part of `runSubagent` (`src/tools/run.ts`): writes the
initial metadata; on a successful spawn it returns the run identifier
immediately (the close handler fires later), on a spawn failure it runs
the catch block.  Result: the persisted document and the value/throw
returned to the caller of `start`. -/
def runSubagent (runId command startTime : String) (spawn : SpawnResult)
    (logContent errorTime : String) : RunDoc × Except String String :=
  let metadata := initialMetadata runId command startTime
  match spawn with
  | .spawned => (metadata, Except.ok runId)
  | .failed err => spawnFailure metadata err logContent errorTime

/-- The `not_found` sentinel object returned by `checkSubagentStatus` and
`updateSubagentStatus` when the metadata file is absent. -/
structure NotFoundView where
  runId : String
  status : String
  message : String
  deriving Repr, DecidableEq

/-- Result of `checkSubagentStatus` (`src/tools/status.ts`, lines 6-31):
either the parsed document, the `not_found` sentinel, or an error
propagated to the caller (`throw error`). -/
inductive StatusResult
  | doc (d : RunDoc)
  | notFound (v : NotFoundView)
  | thrown
  deriving Repr, DecidableEq

/-- `checkSubagentStatus` (`src/tools/status.ts`, lines 6-31).  `file` is
the raw content of the metadata file (`none` = `ENOENT`), `parse` is the
`JSON.parse` oracle.  A missing file yields the `not_found` sentinel; a
present file whose content fails to parse re-throws (the `SyntaxError` has
no `code === "ENOENT"`, so both catch blocks re-throw it). -/
def checkSubagentStatus (runId : String) (file : Option String)
    (parse : String → Option RunDoc) : StatusResult :=
  match file with
  | none => .notFound { runId := runId, status := "not_found", message := "Run ID not found" }
  | some raw =>
    match parse raw with
    | some d => .doc d
    | none => .thrown

/-- `updateSubagentStatus` (`src/tools/status.ts`, lines 34-110), acting on
an existing document: spreads the prior document, overrides `status`,
`summary` (only when the argument is provided) and `lastUpdated`, and sets
`endTime` when the new status is terminal and `endTime` is falsy. -/
def updateSubagentStatus (doc : RunDoc) (status : String) (timestamp : String)
    (summary : Option String) : RunDoc :=
  let updated :=
    { doc with
      status := status
      summary := match summary with
        | some s => some s
        | none => doc.summary
      lastUpdated := some timestamp }
  if isTerminalStatus status && !optStrTruthy updated.endTime then
    { updated with endTime := some timestamp }
  else updated

/-! ## Message channel

`askParent`, `replySubagent` and `checkMessageStatus` read-modify-write a
`.meta.json` document whose communication state lives in a nested `meta`
sub-object (`meta.status`, `meta.messages`), as established by the design
document and the vitest suites; some documents additionally carry a
top-level `status`/`messages` mirror ("legacy structure"). -/

/-- The nested `meta` sub-object of a message-channel document. -/
structure MetaInner where
  status : String
  messages : Option (List Message)
  deriving Repr, DecidableEq

/-- A message-channel run document: top-level fields plus the nested
`meta` sub-object (absent on legacy flat documents). -/
structure MsgDoc where
  runId : Option String
  agentName : Option String
  status : Option String
  messages : Option (List Message)
  meta : Option MetaInner
  deriving Repr, DecidableEq

/-- `messages.findIndex(msg => msg.messageId === messageId)` together with
the found element: index and message, or `none`. -/
def findMsg : List Message → String → Option (Nat × Message)
  | [], _ => none
  | m :: rest, mid =>
    if m.messageId = mid then some (0, m)
    else (findMsg rest mid).map (fun p => (p.1 + 1, p.2))

/-- Failure modes of `replySubagentHandler`, mirroring its thrown errors:
unreadable meta file, message id not found, message not in
`pending_parent_reply`, and the `TypeError` raised on a document with no
`meta` sub-object (`meta.meta.messages` on `undefined`). -/
inductive ReplyError
  | notFoundRun
  | notFoundMessage
  | invalidStateTransition
  | typeError
  deriving Repr, DecidableEq

/-- Successful result of `replySubagentHandler`. -/
structure ReplyOk where
  success : Bool
  message : String
  updatedMetadata : MsgDoc
  deriving Repr, DecidableEq

/-- The in-place update of a found pending message performed by
`replySubagentHandler` (`src/tools/replySubagent.ts`, lines 77-80). -/
def setAnswer (msg : Message) (answer ts : String) : Message :=
  { msg with
    answerContent := some answer
    answerTimestamp := some ts
    messageStatus := "parent_replied" }

/-- `replySubagentHandler` (`src/tools/replySubagent.ts`, lines 37-94):
reads the document, initialises the top-level `messages` array when it is
not an array, locates the message by id inside `meta.meta.messages`,
requires `messageStatus === "pending_parent_reply"`, sets the answer
fields and `messageStatus = "parent_replied"` on it, sets both the
top-level `status` and the nested `meta.status` to `"parent_replied"`,
writes the document back and returns a success record carrying it. -/
def replySubagentHandler (doc : Option MsgDoc) (messageId answer now : String) :
    Except ReplyError ReplyOk :=
  match doc with
  | none => .error .notFoundRun
  | some d0 =>
    let d := { d0 with messages := some (d0.messages.getD []) }
    match d.meta with
    | none => .error .typeError
    | some m =>
      match m.messages with
      | none => .error .notFoundMessage
      | some msgs =>
        match findMsg msgs messageId with
        | none => .error .notFoundMessage
        | some (i, msg) =>
          if msg.messageStatus = "pending_parent_reply" then
            let msgs2 := msgs.set i (setAnswer msg answer now)
            let m2 : MetaInner := { status := "parent_replied", messages := some msgs2 }
            let d2 := { d with status := some "parent_replied", meta := some m2 }
            .ok { success := true
                  message := "Parent reply recorded and metadata updated."
                  updatedMetadata := d2 }
          else .error .invalidStateTransition

/-- The view of a single message returned by `checkMessageStatusHandler`
(`src/tools/checkMessage.ts`, lines 59-66), prepared before any
mutation. -/
structure MsgView where
  messageId : String
  questionContent : String
  questionTimestamp : String
  answerContent : Option String
  answerTimestamp : Option String
  messageStatus : String
  deriving Repr, DecidableEq

/-- Projection of a stored message to the returned view. -/
def msgViewOf (m : Message) : MsgView :=
  { messageId := m.messageId
    questionContent := m.questionContent
    questionTimestamp := m.questionTimestamp
    answerContent := m.answerContent
    answerTimestamp := m.answerTimestamp
    messageStatus := m.messageStatus }

/-- Failure modes of `checkMessageStatusHandler`, mirroring its thrown
errors. -/
inductive CheckError
  | notFoundRun
  | noMessages
  | notFoundMessage
  deriving Repr, DecidableEq

/-- `checkMessageStatusHandler` (`src/tools/checkMessage.ts`, lines
20-87).  `const meta = metadata.meta || metadata` selects the nested
sub-object when present, otherwise the document itself; the output view is
prepared before any mutation; when the located message is in
`parent_replied` the handler acknowledges it in place, sets the effective
status (and the top-level `status` mirror, when truthy) to `"running"` and
writes the document back, otherwise the call is a pure read.  Returns the
view together with the (possibly updated) persisted document. -/
def checkMessageStatusHandler (doc : Option MsgDoc) (messageId : String) :
    Except CheckError (MsgView × MsgDoc) :=
  match doc with
  | none => .error .notFoundRun
  | some d =>
    let effMessages := match d.meta with
      | some m => m.messages
      | none => d.messages
    match effMessages with
    | none => .error .noMessages
    | some msgs =>
      match findMsg msgs messageId with
      | none => .error .notFoundMessage
      | some (i, msg) =>
        let output := msgViewOf msg
        if msg.messageStatus = "parent_replied" then
          let msgs2 := msgs.set i { msg with messageStatus := "acknowledged_by_subagent" }
          let d2 := match d.meta with
            | some _ =>
              { d with
                meta := some { status := "running", messages := some msgs2 }
                status := if optStrTruthy d.status then some "running" else d.status }
            | none =>
              { d with messages := some msgs2, status := some "running" }
          .ok (output, d2)
        else .ok (output, d)

/-! ## Concrete example documents used in closed evaluations -/

/-- A message that has been replied to by the parent but not yet
acknowledged by the subagent. -/
def exRepliedMsg : Message :=
  { messageId := "m1"
    questionContent := "Should I continue?"
    questionTimestamp := "2025-01-01T00:01:00.000Z"
    answerContent := some "Yes, continue."
    answerTimestamp := some "2025-01-01T00:02:00.000Z"
    messageStatus := "parent_replied" }

/-- A run document in `parent_replied` state holding `exRepliedMsg`, in the
nested layout the message channel persists. -/
def exRepliedDoc : MsgDoc :=
  { runId := some "r1"
    agentName := some "test"
    status := some "parent_replied"
    messages := none
    meta := some { status := "parent_replied", messages := some [exRepliedMsg] } }

/-- A message still awaiting the parent's reply. -/
def exPendingMsg : Message :=
  { messageId := "m1"
    questionContent := "Should I continue?"
    questionTimestamp := "2025-01-01T00:01:00.000Z"
    answerContent := none
    answerTimestamp := none
    messageStatus := "pending_parent_reply" }

/-- A run document in `waiting_parent_reply` state holding
`exPendingMsg`. -/
def exPendingDoc : MsgDoc :=
  { runId := some "r1"
    agentName := some "test"
    status := some "waiting_parent_reply"
    messages := none
    meta := some { status := "waiting_parent_reply", messages := some [exPendingMsg] } }

/-- The document written back by `checkMessageStatusHandler` when it
acknowledges message `i` of `msgs` (found as `msg`) inside a document `d`
whose `meta` sub-object is present: the message is acknowledged in place,
the nested status is reset to `"running"`, and the top-level status mirror
is reset only when truthy. -/
def ackUpdatedDoc (d : MsgDoc) (msgs : List Message) (i : Nat) (msg : Message) : MsgDoc :=
  { d with
    meta := some
      { status := "running"
        messages := some (msgs.set i { msg with messageStatus := "acknowledged_by_subagent" }) }
    status := if optStrTruthy d.status then some "running" else d.status }

/-! ## Helper lemmas about `findMsg` -/

theorem findMsg_messageId {msgs : List Message} {mid : String} {i : Nat} {msg : Message}
    (h : findMsg msgs mid = some (i, msg)) : msg.messageId = mid := by
  induction msgs generalizing i with
  | nil => simp [findMsg] at h
  | cons a rest ih =>
    by_cases ha : a.messageId = mid
    · simp [findMsg, ha] at h
      rw [← h.2]
      exact ha
    · simp only [findMsg, if_neg ha, Option.map_eq_some'] at h
      obtain ⟨⟨j, m⟩, hj, hpair⟩ := h
      have hm : m = msg := congrArg Prod.snd hpair
      rw [hm] at hj
      exact ih hj

theorem findMsg_set {msgs : List Message} {mid : String} {i : Nat} {msg : Message}
    (x : Message) (h : findMsg msgs mid = some (i, msg)) (hx : x.messageId = mid) :
    findMsg (msgs.set i x) mid = some (i, x) := by
  induction msgs generalizing i with
  | nil => simp [findMsg] at h
  | cons a rest ih =>
    by_cases ha : a.messageId = mid
    · simp [findMsg, ha] at h
      rw [← h.1]
      simp [List.set, findMsg, hx]
    · simp only [findMsg, if_neg ha, Option.map_eq_some'] at h
      obtain ⟨⟨j, m⟩, hj, hpair⟩ := h
      have hji : j + 1 = i := congrArg Prod.fst hpair
      have hm : m = msg := congrArg Prod.snd hpair
      subst hm
      rw [← hji]
      simp [List.set, findMsg, if_neg ha, ih hj]

/-! ## Claims -/

/-- C1: the spec requires the process-exit handler to preserve a terminal
status (`success`/`error`/`completed`) explicitly set by the worker before
termination.  The repository's own test suite asserts the same
("should not overwrite status if already success or error in metadata
before process ends"), but the close handler of `runSubagent`
unconditionally replaces `status` with the exit-code classification: here
a worker-set terminal `error` status (exit code 0) resurfaces as
`success`. -/
theorem c1_close_handler_overwrites_worker_terminal_status :
    (updateSubagentStatus (initialMetadata "r1" "cmd" "t0") "error" "t1"
        (some "worker reported failure")).status = "error" ∧
    isTerminalStatus "error" = true ∧
    (closeHandler
        (updateSubagentStatus (initialMetadata "r1" "cmd" "t0") "error" "t1"
          (some "worker reported failure"))
        (some 0) "some log" "t2").status = "success" ∧
    "success" ≠ "error" :=
  ⟨rfl, rfl, rfl, by decide⟩

/-- C2 (counterexample): the claim says the first `checkMessageStatus`
call on a `parent_replied` message returns the now-acknowledged state
(view shows `acknowledged_by_subagent`); the handler prepares the output
before mutating, so the first call returns the pre-acknowledgment view
`parent_replied` (as the repository's own tests assert). -/
theorem c2_first_poll_returns_pre_ack_view :
    (checkMessageStatusHandler (some exRepliedDoc) "m1").map
        (fun p => p.1.messageStatus) = Except.ok "parent_replied" ∧
    "parent_replied" ≠ "acknowledged_by_subagent" :=
  ⟨rfl, by decide⟩

/-- C2 (amended): on a document whose located message is in
`parent_replied`, the first `checkMessageStatus` call acknowledges the
message in place, resets the run status to `running`, and returns the
pre-acknowledgment view (`parent_replied`); a second call for the same
message id returns `acknowledged_by_subagent`, performs no further
mutation, and leaves the run status unchanged. -/
theorem c2_first_poll_acknowledges_second_poll_pure (d : MsgDoc) (m : MetaInner)
    (msgs : List Message) (mid : String) (i : Nat) (msg : Message)
    (hmeta : d.meta = some m) (hmsgs : m.messages = some msgs)
    (hfind : findMsg msgs mid = some (i, msg))
    (hstatus : msg.messageStatus = "parent_replied") :
    checkMessageStatusHandler (some d) mid =
      .ok (msgViewOf msg, ackUpdatedDoc d msgs i msg) ∧
    (msgViewOf msg).messageStatus = "parent_replied" ∧
    (ackUpdatedDoc d msgs i msg).meta = some
      { status := "running"
        messages := some (msgs.set i { msg with messageStatus := "acknowledged_by_subagent" }) } ∧
    checkMessageStatusHandler (some (ackUpdatedDoc d msgs i msg)) mid =
      .ok (msgViewOf { msg with messageStatus := "acknowledged_by_subagent" },
           ackUpdatedDoc d msgs i msg) ∧
    (msgViewOf { msg with messageStatus := "acknowledged_by_subagent" }).messageStatus
      = "acknowledged_by_subagent" := by
  have hid : msg.messageId = mid := findMsg_messageId hfind
  have hset : findMsg
      (msgs.set i { msg with messageStatus := "acknowledged_by_subagent" }) mid =
      some (i, { msg with messageStatus := "acknowledged_by_subagent" }) :=
    findMsg_set _ hfind hid
  refine ⟨?_, ?_, rfl, ?_, rfl⟩
  · simp [checkMessageStatusHandler, hmeta, hmsgs, hfind, hstatus, ackUpdatedDoc]
  · simp [msgViewOf, hstatus]
  · simp [checkMessageStatusHandler, ackUpdatedDoc, hset]

/-- C2 witness: `c2_first_poll_acknowledges_second_poll_pure` applied to
the concrete replied document `exRepliedDoc`. -/
theorem c2_first_poll_acknowledges_second_poll_pure_witness :
    findMsg [exRepliedMsg] "m1" = some (0, exRepliedMsg) ∧
    exRepliedMsg.messageStatus = "parent_replied" ∧
    checkMessageStatusHandler (some exRepliedDoc) "m1" =
      .ok (msgViewOf exRepliedMsg, ackUpdatedDoc exRepliedDoc [exRepliedMsg] 0 exRepliedMsg) ∧
    checkMessageStatusHandler
        (some (ackUpdatedDoc exRepliedDoc [exRepliedMsg] 0 exRepliedMsg)) "m1" =
      .ok (msgViewOf { exRepliedMsg with messageStatus := "acknowledged_by_subagent" },
           ackUpdatedDoc exRepliedDoc [exRepliedMsg] 0 exRepliedMsg) :=
  ⟨rfl, rfl,
   (c2_first_poll_acknowledges_second_poll_pure exRepliedDoc _ [exRepliedMsg] "m1" 0
      exRepliedMsg rfl rfl rfl rfl).1,
   (c2_first_poll_acknowledges_second_poll_pure exRepliedDoc _ [exRepliedMsg] "m1" 0
      exRepliedMsg rfl rfl rfl rfl).2.2.2.1⟩

/-- C3: `replySubagentHandler` succeeds exactly when the run document
exists and holds a message with the given id in `pending_parent_reply`
state; on success it sets the answer fields and `parent_replied` on that
message and sets the run status (nested and top-level) to
`parent_replied`; a missing run fails not-found, a missing message id
fails not-found, and a located non-pending message (e.g. a second reply)
fails with the invalid-state-transition error. -/
theorem c3_reply_succeeds_iff_pending (d : MsgDoc) (m : MetaInner)
    (msgs : List Message) (mid ans now : String)
    (hmeta : d.meta = some m) (hmsgs : m.messages = some msgs) :
    (replySubagentHandler none mid ans now = .error .notFoundRun) ∧
    (findMsg msgs mid = none →
      replySubagentHandler (some d) mid ans now = .error .notFoundMessage) ∧
    (∀ i msg, findMsg msgs mid = some (i, msg) →
      msg.messageStatus ≠ "pending_parent_reply" →
      replySubagentHandler (some d) mid ans now = .error .invalidStateTransition) ∧
    (∀ i msg, findMsg msgs mid = some (i, msg) →
      msg.messageStatus = "pending_parent_reply" →
      replySubagentHandler (some d) mid ans now =
        .ok { success := true
              message := "Parent reply recorded and metadata updated."
              updatedMetadata :=
                { d with
                  messages := some (d.messages.getD [])
                  status := some "parent_replied"
                  meta := some { status := "parent_replied"
                                 messages := some (msgs.set i (setAnswer msg ans now)) } } }) := by
  refine ⟨rfl, fun hnone => ?_, fun i msg hfind hne => ?_, fun i msg hfind hpending => ?_⟩
  · simp [replySubagentHandler, hmeta, hmsgs, hnone]
  · simp [replySubagentHandler, hmeta, hmsgs, hfind, hne]
  · simp [replySubagentHandler, hmeta, hmsgs, hfind, hpending]

/-- C3 witness: `c3_reply_succeeds_iff_pending` applied to the concrete
pending document `exPendingDoc`: the missing-message, double-reply and
success branches at concrete inputs. -/
theorem c3_reply_succeeds_iff_pending_witness :
    (replySubagentHandler (some exPendingDoc) "missing" "yes" "t2" =
      .error .notFoundMessage) ∧
    (replySubagentHandler (some exRepliedDoc) "m1" "yes" "t2" =
      .error .invalidStateTransition) ∧
    (replySubagentHandler (some exPendingDoc) "m1" "yes" "t2" =
      .ok { success := true
            message := "Parent reply recorded and metadata updated."
            updatedMetadata :=
              { exPendingDoc with
                messages := some []
                status := some "parent_replied"
                meta := some { status := "parent_replied"
                               messages := some [setAnswer exPendingMsg "yes" "t2"] } } }) :=
  ⟨(c3_reply_succeeds_iff_pending exPendingDoc _ [exPendingMsg] "missing" "yes" "t2"
      rfl rfl).2.1 rfl,
   (c3_reply_succeeds_iff_pending exRepliedDoc _ [exRepliedMsg] "m1" "yes" "t2"
      rfl rfl).2.2.1 0 exRepliedMsg rfl (by decide),
   (c3_reply_succeeds_iff_pending exPendingDoc _ [exPendingMsg] "m1" "yes" "t2"
      rfl rfl).2.2.2 0 exPendingMsg rfl rfl⟩

/-- C4 (counterexample): the claim says a spawn failure is never thrown
back to the original caller of `start`; but the catch block of
`runSubagent` ends in `throw error`, so the caller receives the
rejection. -/
theorem c4_spawn_failure_is_rethrown :
    (runSubagent "r1" "cmd" "t0" (.failed "spawn ENOENT") "" "t1").2 =
      Except.error "spawn ENOENT" :=
  rfl

/-- C4 (amended): a spawn failure is recorded into the run document as
`status = "error"` with the log tail (which includes the spawn error text,
appended to the log beforehand) as `summary`, and the caught error is then
re-thrown to the caller of `start`. -/
theorem c4_spawn_failure_recorded_and_rethrown (runId command startTime err
    logContent errorTime : String) :
    (runSubagent runId command startTime (.failed err) logContent errorTime).1.status
        = "error" ∧
    (runSubagent runId command startTime (.failed err) logContent errorTime).1.summary
        = some (logTail (logContent ++ "[" ++ errorTime ++
            "] Error executing subagent: " ++ err ++ "\n")) ∧
    (runSubagent runId command startTime (.failed err) logContent errorTime).1.errorText
        = some err ∧
    (runSubagent runId command startTime (.failed err) logContent errorTime).1.endTime
        = some errorTime ∧
    (runSubagent runId command startTime (.failed err) logContent errorTime).2
        = Except.error err :=
  ⟨rfl, rfl, rfl, rfl, rfl⟩

/-- C5: `checkSubagentStatus` on a run identifier with no metadata file
returns the `not_found` sentinel view carrying the same `runId` and
`status = "not_found"`; it never throws for a never-created identifier. -/
theorem c5_get_status_missing_run_not_found_view (runId : String)
    (parse : String → Option RunDoc) :
    checkSubagentStatus runId none parse =
      .notFound { runId := runId, status := "not_found", message := "Run ID not found" } :=
  rfl

/-- C6: when the metadata file is present but its content fails to parse,
`checkSubagentStatus` propagates the fatal error to the caller; a present
file never yields the `not_found` sentinel, whatever the parse result. -/
theorem c6_corrupt_content_propagates_fatal (runId raw : String)
    (parse : String → Option RunDoc) (h : parse raw = none) :
    checkSubagentStatus runId (some raw) parse = .thrown ∧
    ∀ v, checkSubagentStatus runId (some raw) parse ≠ .notFound v := by
  constructor
  · simp [checkSubagentStatus, h]
  · intro v
    simp [checkSubagentStatus, h]

/-- C6 witness: a concrete unreadable file content with a parser that
rejects it. -/
theorem c6_corrupt_content_propagates_fatal_witness :
    checkSubagentStatus "r1" (some "not json") (fun _ => none) = .thrown ∧
    ∀ v, checkSubagentStatus "r1" (some "not json") (fun _ => none) ≠ .notFound v :=
  c6_corrupt_content_propagates_fatal "r1" "not json" (fun _ => none) rfl

/-- C7: when the close handler classifies the run as `error` (exit code not
0) and the re-read document has no summary present, the persisted summary
is the last 50 lines of the run's log (`logTail`); an already-present
summary is kept unchanged; and on exit code 0 no log-tail summary is
derived. -/
theorem c7_error_summary_from_log_tail (current : RunDoc) (code : Option Int)
    (logContent t : String) :
    (code ≠ some 0 → optStrTruthy current.summary = false →
      (closeHandler current code logContent t).summary = some (logTail logContent)) ∧
    (optStrTruthy current.summary = true →
      (closeHandler current code logContent t).summary = current.summary) ∧
    (code = some 0 →
      (closeHandler current code logContent t).summary = current.summary) := by
  refine ⟨fun h1 h2 => ?_, fun h => ?_, fun h => ?_⟩ <;>
    simp [closeHandler, *]

/-- C7 witness: concrete error exit with no prior summary, concrete
worker-set summary kept, concrete clean exit. -/
theorem c7_error_summary_from_log_tail_witness :
    (closeHandler (initialMetadata "r1" "cmd" "t0") (some 1) "line1\nline2" "t2").summary
        = some (logTail "line1\nline2") ∧
    (closeHandler { initialMetadata "r1" "cmd" "t0" with summary := some "kept" }
        (some 1) "line1\nline2" "t2").summary = some "kept" ∧
    (closeHandler (initialMetadata "r1" "cmd" "t0") (some 0) "line1\nline2" "t2").summary
        = none :=
  ⟨(c7_error_summary_from_log_tail (initialMetadata "r1" "cmd" "t0") (some 1)
      "line1\nline2" "t2").1 (by decide) rfl,
   (c7_error_summary_from_log_tail
      { initialMetadata "r1" "cmd" "t0" with summary := some "kept" } (some 1)
      "line1\nline2" "t2").2.1 rfl,
   (c7_error_summary_from_log_tail (initialMetadata "r1" "cmd" "t0") (some 0)
      "line1\nline2" "t2").2.2 rfl⟩

/-- C9 (counterexample): the claim says an already-set `endTime` is never
overwritten, including by the process-exit handler after a worker already
set a terminal status.  Here the worker's terminal update sets
`endTime = "T1"`, and the close handler then overwrites it with "T2". -/
theorem c9_close_handler_overwrites_end_time :
    (updateSubagentStatus (initialMetadata "r1" "cmd" "t0") "success" "T1" none).endTime
        = some "T1" ∧
    (closeHandler
        (updateSubagentStatus (initialMetadata "r1" "cmd" "t0") "success" "T1" none)
        (some 0) "" "T2").endTime = some "T2" ∧
    "T2" ≠ "T1" :=
  ⟨rfl, rfl, by decide⟩

/-- C9 (amended): `updateSubagentStatus` sets `endTime` exactly once — on
the first transition into a terminal status while `endTime` is unset, and
preserves a set `endTime` otherwise — but the process-exit handler
unconditionally overwrites `endTime` with the process-exit timestamp, even
when it was already set. -/
theorem c9_end_time_discipline :
    (∀ (doc : RunDoc) (st t : String) (s : Option String),
        optStrTruthy doc.endTime = true →
        (updateSubagentStatus doc st t s).endTime = doc.endTime) ∧
    (∀ (doc : RunDoc) (st t : String) (s : Option String),
        isTerminalStatus st = true → optStrTruthy doc.endTime = false →
        (updateSubagentStatus doc st t s).endTime = some t) ∧
    (∀ (doc : RunDoc) (st t : String) (s : Option String),
        isTerminalStatus st = false →
        (updateSubagentStatus doc st t s).endTime = doc.endTime) ∧
    (∀ (current : RunDoc) (code : Option Int) (logContent t : String),
        (closeHandler current code logContent t).endTime = some t) := by
  refine ⟨fun doc st t s h => ?_, fun doc st t s h1 h2 => ?_,
          fun doc st t s h => ?_, fun current code logContent t => ?_⟩ <;>
    simp [updateSubagentStatus, closeHandler, *]

/-- C9 witness: concrete instances discharging each hypothesis of
`c9_end_time_discipline`. -/
theorem c9_end_time_discipline_witness :
    (updateSubagentStatus { initialMetadata "r1" "cmd" "t0" with endTime := some "T1" }
        "completed" "T9" none).endTime = some "T1" ∧
    (updateSubagentStatus (initialMetadata "r1" "cmd" "t0") "success" "T1" none).endTime
        = some "T1" ∧
    (updateSubagentStatus { initialMetadata "r1" "cmd" "t0" with endTime := some "T1" }
        "running" "T9" none).endTime = some "T1" ∧
    (closeHandler { initialMetadata "r1" "cmd" "t0" with endTime := some "T1" }
        (some 0) "" "T2").endTime = some "T2" :=
  ⟨c9_end_time_discipline.1 { initialMetadata "r1" "cmd" "t0" with endTime := some "T1" }
      "completed" "T9" none (by decide),
   c9_end_time_discipline.2.1 (initialMetadata "r1" "cmd" "t0") "success" "T1" none
      (by decide) (by decide),
   c9_end_time_discipline.2.2.1
      { initialMetadata "r1" "cmd" "t0" with endTime := some "T1" } "running" "T9" none
      (by decide),
   c9_end_time_discipline.2.2.2
      { initialMetadata "r1" "cmd" "t0" with endTime := some "T1" } (some 0) "" "T2"⟩

/-- C10: `updateSubagentStatus` with the summary argument omitted leaves
the stored summary unchanged; every field other than `status`, `summary`,
`lastUpdated` and `endTime` is preserved verbatim; and `endTime` is set
(to the call timestamp) exactly when the new status is terminal and
`endTime` was previously unset. -/
theorem c10_update_status_frame (doc : RunDoc) (st t : String) (sum : Option String) :
    (updateSubagentStatus doc st t none).summary = doc.summary ∧
    (updateSubagentStatus doc st t sum).runId = doc.runId ∧
    (updateSubagentStatus doc st t sum).agentName = doc.agentName ∧
    (updateSubagentStatus doc st t sum).command = doc.command ∧
    (updateSubagentStatus doc st t sum).startTime = doc.startTime ∧
    (updateSubagentStatus doc st t sum).exitCode = doc.exitCode ∧
    (updateSubagentStatus doc st t sum).errorText = doc.errorText ∧
    (updateSubagentStatus doc st t sum).messages = doc.messages ∧
    (updateSubagentStatus doc st t sum).endTime =
      (if isTerminalStatus st && !optStrTruthy doc.endTime then some t
       else doc.endTime) := by
  refine ⟨?_, ?_, ?_, ?_, ?_, ?_, ?_, ?_, ?_⟩
  · simp [updateSubagentStatus, apply_ite RunDoc.summary]
  · simp [updateSubagentStatus, apply_ite RunDoc.runId]
  · simp [updateSubagentStatus, apply_ite RunDoc.agentName]
  · simp [updateSubagentStatus, apply_ite RunDoc.command]
  · simp [updateSubagentStatus, apply_ite RunDoc.startTime]
  · simp [updateSubagentStatus, apply_ite RunDoc.exitCode]
  · simp [updateSubagentStatus, apply_ite RunDoc.errorText]
  · simp [updateSubagentStatus, apply_ite RunDoc.messages]
  · simp [updateSubagentStatus, apply_ite RunDoc.endTime]

end Subagent
